import Mathlib

/-!
Shallow embedding of the AP-CoreTypes error-identity model and Result type.

The definitions below are translated from the repository's C++ sources:
ErrorDomain / CoreErrorDomain (error_domain.h, core_error_domain.h and the
translation unit implementing CoreErrorDomain::Message), ErrorCode (the
implementation in the draft header), Exception (exception.h), the canonical
variant-based Result<T,E> and Result<void,E> (result.h), and the union-based
draft Result.  Machine integers are modelled as Int (int32 code values) and
Nat (uint64 ids, uint32 support data); none of the verified operations can
overflow on the inputs considered.
-/

namespace AraCore

/-- Embedding of ara::core::ErrorDomain: an immutable domain identified by a
64-bit id, carrying a name and the virtual per-code message lookup. -/
structure ErrorDomain where
  domId : Nat
  domName : String
  domMessage : Int → String

/-- ErrorDomain::operator==: two domains compare equal when their ids are
equal. -/
def ErrorDomain.eqb (d1 d2 : ErrorDomain) : Bool :=
  d1.domId == d2.domId

/-- CoreErrorDomain::Message: switch over the CoreErrc enumerators
(kInvalidArgument = 22, kInvalidMetaModelShortname = 137,
kInvalidMetaModelPath = 138) with the fallback text in the default case. -/
def coreDomainMessage (errorCode : Int) : String :=
  if errorCode == 22 then "an invalid argument was passed to a function"
  else if errorCode == 137 then "given string is not a valid model element shortname"
  else if errorCode == 138 then "missing or invalid path to model element"
  else "Invalid code value"

/-- The global constexpr coreErrorDomain: id 0x8000000000000014, Name()
returning "Core", and CoreErrorDomain::Message as its message lookup. -/
def coreErrorDomain : ErrorDomain :=
  ⟨0x8000000000000014, "Core", coreDomainMessage⟩

/-- Embedding of ara::core::ErrorCode: the (value, domain, supportData)
triple.  The C++ object stores a pointer to the process-lifetime domain
singleton; the model stores the domain itself, with equality on ids. -/
structure ErrorCode where
  value : Int
  domain : ErrorDomain
  data : Nat

/-- ErrorCode::Value(). -/
def ErrorCode.Value (ec : ErrorCode) : Int := ec.value

/-- ErrorCode::Domain(). -/
def ErrorCode.Domain (ec : ErrorCode) : ErrorDomain := ec.domain

/-- ErrorCode::SupportData(). -/
def ErrorCode.SupportData (ec : ErrorCode) : Nat := ec.data

/-- ErrorCode::Message() as implemented: returns StringView(domain->Name()),
the name of the domain. -/
def ErrorCode.Message (ec : ErrorCode) : String := ec.domain.domName

/-- operator==(ErrorCode, ErrorCode): the Value() results and the Domain()
results (compared by id) must be equal; SupportData() is not considered. -/
def ErrorCode.eqb (lhs rhs : ErrorCode) : Bool :=
  lhs.value == rhs.value && ErrorDomain.eqb lhs.domain rhs.domain

/-- MakeErrorCode(CoreErrc code, SupportDataType data): builds an ErrorCode
carrying the core domain. -/
def MakeErrorCode (code : Int) (data : Nat) : ErrorCode :=
  ⟨code, coreErrorDomain, data⟩

/-- Caller-owned ErrorCode storage, addressed by location: the environment an
Exception's reference member points into. -/
def ECStore : Type := Nat → ErrorCode

/-- Embedding of ara::core::Exception as implemented: its member is
`ErrorCode const& error`, a reference to caller-owned storage, modelled as
the address of the referenced object. -/
structure ExceptionRef where
  addr : Nat

/-- Exception::Exception(ErrorCode const& err): binds the reference member to
the caller's object. -/
def ExceptionRef.make (a : Nat) : ExceptionRef := ⟨a⟩

/-- Exception::Error(): reads through the stored reference, yielding whatever
the caller-owned object currently contains. -/
def ExceptionRef.Error (store : ECStore) (ex : ExceptionRef) : ErrorCode :=
  store ex.addr

/-- Overwrite the caller-owned ErrorCode object at address a. -/
def storeWrite (store : ECStore) (a : Nat) (ec : ErrorCode) : ECStore :=
  fun x => if x == a then ec else store x

/-- Canonical Result<T,E> from result.h: a std::variant<value_type,
error_type>, holding exactly one alternative. -/
inductive Result (T E : Type) where
  | val : T → Result T E
  | err : E → Result T E
deriving DecidableEq

/-- Result::HasValue(): holds_alternative over the value side. -/
def Result.HasValue {T E : Type} : Result T E → Bool
  | Result.val _ => true
  | Result.err _ => false

/-- Result::EmplaceValue(args...): result_.emplace over the value side; the
value alternative becomes active whatever was active before. -/
def Result.EmplaceValue {T E : Type} (_r : Result T E) (t : T) : Result T E :=
  Result.val t

/-- Result::EmplaceError(args...): result_.emplace over the error side; the
error alternative becomes active whatever was active before. -/
def Result.EmplaceError {T E : Type} (_r : Result T E) (e : E) : Result T E :=
  Result.err e

/-- Result::Swap(other): this->result_.swap(other.result_), a wholesale
exchange of the two variant contents. -/
def resultSwap {T E : Type} (a b : Result T E) : Result T E × Result T E :=
  (b, a)

/-- Canonical copy assignment lhs = rhs: this->result_ = other.result_; the
source operand is left unchanged.  Returns the pair (new lhs, rhs). -/
def resultAssign {T E : Type} (_lhs rhs : Result T E) :
    Result T E × Result T E :=
  (rhs, rhs)

/-- operator==(Result, Result): when both operands hold a value, compare the
values; in every other combination return false. -/
def resultEq {T E : Type} [DecidableEq T] : Result T E → Result T E → Bool
  | Result.val x, Result.val y => decide (x = y)
  | _, _ => false

/-- operator!=(Result, Result): the negation of operator==. -/
def resultNe {T E : Type} [DecidableEq T] (lhs rhs : Result T E) : Bool :=
  !(resultEq lhs rhs)

/-- Result::Bind for a callable of shape value_type → value_type: the branch
in which typeid(value) equals typeid(f(value)) wraps f(value) into a new
Result; without a value, a Result is built from the stored error. -/
def Result.Bind {T E : Type} (r : Result T E) (f : T → T) : Result T E :=
  match r with
  | Result.val v => Result.val (f v)
  | Result.err e => Result.err e

/-- Result<void,E> from result.h: a std::variant<error_type, no_error_type>
whose value side is a mere presence marker. -/
inductive ResultVoid (E : Type) where
  | err : E → ResultVoid E
  | ok : ResultVoid E
deriving DecidableEq

/-- Result<void,E>::Result(): default construction puts no_error_type into
the variant. -/
def ResultVoid.defaultCtor {E : Type} : ResultVoid E := ResultVoid.ok

/-- Result<void,E>::FromValue(): returns Result(). -/
def ResultVoid.FromValue {E : Type} : ResultVoid E := ResultVoid.defaultCtor

/-- Result<void,E>::HasValue(): the negation of holds_alternative over the
error side. -/
def ResultVoid.HasValue {E : Type} : ResultVoid E → Bool
  | ResultVoid.err _ => false
  | ResultVoid.ok => true

/-- Result<void,E>::operator bool(): same body as HasValue(). -/
def ResultVoid.toBool {E : Type} : ResultVoid E → Bool
  | ResultVoid.err _ => false
  | ResultVoid.ok => true

/-- Union-based draft Result: an anonymous union of value_ and error_ plus a
hasValue_ tag.  Both union members are modelled as raw storage that persists
until overwritten, mirroring that the draft reads union members directly. -/
structure DraftResult (T E : Type) where
  hasValue : Bool
  value : T
  error : E
deriving DecidableEq

/-- Draft Result::HasValue(): returns the tag. -/
def DraftResult.HasValue {T E : Type} (d : DraftResult T E) : Bool :=
  d.hasValue

/-- Draft Result::EmplaceValue: assign over a live value, otherwise destroy
the error, flip the tag and construct the value in place. -/
def DraftResult.EmplaceValue {T E : Type} (d : DraftResult T E) (t : T) :
    DraftResult T E :=
  if d.hasValue then { d with value := t }
  else ⟨true, t, d.error⟩

/-- Draft Result::EmplaceError: assign over a live error, otherwise destroy
the value, flip the tag and construct the error in place. -/
def DraftResult.EmplaceError {T E : Type} (d : DraftResult T E) (e : E) :
    DraftResult T E :=
  if !d.hasValue then { d with error := e }
  else ⟨false, d.value, e⟩

/-- Draft operator==(Result, Result): same body as the canonical one, both
must hold values and the values must compare equal. -/
def draftEq {T E : Type} [DecidableEq T] (lhs rhs : DraftResult T E) : Bool :=
  if lhs.hasValue && rhs.hasValue then decide (lhs.value = rhs.value)
  else false

/-- Mixed-state case of the draft Swap, first operand holding a value and
second holding an error: both temporaries are read from the first instance's
own members (tempValue = Value(), tempError = Error()), then EmplaceError is
called on the first instance and EmplaceValue on the second. -/
def draftSwapCross {T E : Type} (a b : DraftResult T E) :
    DraftResult T E × DraftResult T E :=
  (a.EmplaceError a.error, b.EmplaceValue a.value)

/-- Draft Result::Swap(other): four cases on the two tags; the
(error, value) case delegates to other.Swap(*this), inlined here as the
mirrored cross case with the components of the pair exchanged. -/
def draftSwap {T E : Type} (a b : DraftResult T E) :
    DraftResult T E × DraftResult T E :=
  if a.hasValue && b.hasValue then
    ({ a with value := b.value }, { b with value := a.value })
  else if !a.hasValue && !b.hasValue then
    ({ a with error := b.error }, { b with error := a.error })
  else if a.hasValue && !b.hasValue then
    draftSwapCross a b
  else
    ((draftSwapCross b a).2, (draftSwapCross b a).1)

/-- Draft copy assignment: early-return when *this == other, otherwise
Swap(other), which also mutates the source.  Returns (new lhs, new rhs). -/
def draftAssign {T E : Type} [DecidableEq T] (lhs rhs : DraftResult T E) :
    DraftResult T E × DraftResult T E :=
  if draftEq lhs rhs then (lhs, rhs) else draftSwap lhs rhs

/-- Observable state of a draft instance: the tag together with the active
union member, expressed as a canonical Result. -/
def DraftResult.obs {T E : Type} (d : DraftResult T E) : Result T E :=
  if d.hasValue then Result.val d.value else Result.err d.error

/-- Claim C1 counterexample: for the ErrorCode with value 22 in the Core
domain, Message() returns "Core", which is not the Core domain's message for
code 22, so Message() does not return the same text as domain.Message(value). -/
theorem claim_C1_cx :
    ErrorCode.Message ⟨22, coreErrorDomain, 0⟩ = "Core" ∧
    coreErrorDomain.domMessage 22 =
      "an invalid argument was passed to a function" ∧
    ErrorCode.Message ⟨22, coreErrorDomain, 0⟩ ≠
      coreErrorDomain.domMessage 22 := by
  refine ⟨rfl, rfl, ?_⟩
  decide

/-- Claim C1 as amended: ErrorCode::Message() returns the domain's Name();
for an ErrorCode with value 22 in the Core domain it returns "Core". -/
theorem claim_C1 :
    (∀ (v : Int) (d : ErrorDomain) (s : Nat),
        ErrorCode.Message ⟨v, d, s⟩ = d.domName) ∧
    ErrorCode.Message ⟨22, coreErrorDomain, 0⟩ = "Core" := by
  exact ⟨fun v d s => rfl, rfl⟩

/-- Claim C2: every Result<T,E> is in exactly one of the states
Holding-Value and Holding-Error, and for every prior state, after
EmplaceValue the value side is active and after EmplaceError the error side
is active. -/
theorem claim_C2 {T E : Type} :
    (∀ r : Result T E,
        ((∃ t, r = Result.val t) ∧ ¬(∃ e, r = Result.err e)) ∨
        (¬(∃ t, r = Result.val t) ∧ (∃ e, r = Result.err e))) ∧
    (∀ (r : Result T E) (t : T), (r.EmplaceValue t).HasValue = true) ∧
    (∀ (r : Result T E) (e : E), (r.EmplaceError e).HasValue = false) := by
  refine ⟨?_, fun r t => rfl, fun r e => rfl⟩
  intro r
  cases r with
  | val t =>
      refine Or.inl ⟨⟨t, rfl⟩, ?_⟩
      rintro ⟨e, h⟩
      cases h
  | err e =>
      refine Or.inr ⟨?_, ⟨e, rfl⟩⟩
      rintro ⟨t, h⟩
      cases h

/-- Claim C3: operator== on Results returns true iff both operands hold a
value and those values compare equal; two error-holding instances compare
false even with equal errors; operator!= is the negation. -/
theorem claim_C3 {T E : Type} [DecidableEq T] :
    (∀ a b : Result T E,
        resultEq a b = true ↔
          ∃ x y, a = Result.val x ∧ b = Result.val y ∧ x = y) ∧
    (∀ e1 e2 : E,
        resultEq (Result.err e1 : Result T E) (Result.err e2) = false) ∧
    (∀ a b : Result T E, resultNe a b = !(resultEq a b)) := by
  refine ⟨?_, fun e1 e2 => rfl, fun a b => rfl⟩
  intro a b
  cases a with
  | val x =>
      cases b with
      | val y => simp [resultEq]
      | err e => simp [resultEq]
  | err e =>
      cases b with
      | val y => simp [resultEq]
      | err f => simp [resultEq]

/-- Claim C4: Swap is an involution: for any two Results in any combination
of states, swapping twice restores both operands exactly. -/
theorem claim_C4 {T E : Type} :
    ∀ a b : Result T E,
      resultSwap (resultSwap a b).1 (resultSwap a b).2 = (a, b) := by
  intro a b
  rfl

/-- Claim C5: Bind on an error-holding Result does not depend on the
callable and returns a Result holding the original error; Bind of an
identity callable on a value-holding Result returns the original value. -/
theorem claim_C5 {T E : Type} :
    (∀ (e : E) (f g : T → T),
        Result.Bind (Result.err e) f = Result.Bind (Result.err e) g ∧
        Result.Bind (Result.err e : Result T E) f = Result.err e) ∧
    (∀ t : T,
        Result.Bind (Result.val t : Result T E) (fun x => x) =
          Result.val t) := by
  exact ⟨fun e f g => ⟨rfl, rfl⟩, fun t => rfl⟩

/-- Claim C6 counterexample: the Exception holds a reference; after the
caller-owned ErrorCode at the referenced address is overwritten with the
code-2 ErrorCode, Error() no longer returns the code-1 ErrorCode that was
current at construction time, so Error() is not independent of later
modification. -/
theorem claim_C6_cx :
    (ExceptionRef.Error
        (storeWrite (fun _ => ⟨1, coreErrorDomain, 0⟩) 0
          ⟨2, coreErrorDomain, 0⟩)
        (ExceptionRef.make 0)).value = 2 ∧
    (ExceptionRef.Error (fun _ => (⟨1, coreErrorDomain, 0⟩ : ErrorCode))
        (ExceptionRef.make 0)).value = 1 ∧
    ExceptionRef.Error
        (storeWrite (fun _ => ⟨1, coreErrorDomain, 0⟩) 0
          ⟨2, coreErrorDomain, 0⟩)
        (ExceptionRef.make 0) ≠
      (⟨1, coreErrorDomain, 0⟩ : ErrorCode) := by
  refine ⟨rfl, rfl, ?_⟩
  intro h
  have hv := congrArg ErrorCode.value h
  exact absurd hv (by decide)

/-- Claim C6 as amended: Exception stores a reference to the caller-owned
ErrorCode, so Error() returns whatever that caller-owned object currently
holds, including any value written to it after construction. -/
theorem claim_C6 :
    (∀ (store : ECStore) (a : Nat),
        ExceptionRef.Error store (ExceptionRef.make a) = store a) ∧
    (∀ (store : ECStore) (a : Nat) (ec : ErrorCode),
        ExceptionRef.Error (storeWrite store a ec) (ExceptionRef.make a) =
          ec) := by
  refine ⟨fun store a => rfl, ?_⟩
  intro store a ec
  simp [ExceptionRef.Error, ExceptionRef.make, storeWrite]

/-- Claim C7: the canonical and the draft Result disagree on copy
assignment: assigning a value-2 instance to a value-1 instance leaves the
source holding 2 under the canonical version and 1 under the draft, which
routes assignment through an equality check and a Swap with its source. -/
theorem claim_C7 :
    (draftAssign (⟨true, 1, 0⟩ : DraftResult Int Int) ⟨true, 2, 0⟩).2.obs ≠
      (resultAssign (Result.val 1 : Result Int Int) (Result.val 2)).2 ∧
    (draftAssign (⟨true, 1, 0⟩ : DraftResult Int Int) ⟨true, 2, 0⟩).2.obs =
      Result.val 1 ∧
    (resultAssign (Result.val 1 : Result Int Int) (Result.val 2)).2 =
      Result.val 2 := by
  refine ⟨?_, ?_, rfl⟩ <;> decide

/-- Claim C8: CoreErrorDomain::Message(22) is the invalid-argument text, and
every code other than 22, 137 and 138 yields the fallback text
"Invalid code value". -/
theorem claim_C8 :
    coreDomainMessage 22 = "an invalid argument was passed to a function" ∧
    ∀ v : Int, v ≠ 22 → v ≠ 137 → v ≠ 138 →
      coreDomainMessage v = "Invalid code value" := by
  refine ⟨rfl, ?_⟩
  intro v h1 h2 h3
  simp [coreDomainMessage, h1, h2, h3]

/-- Claim C8 witness: the unknown code 9999 receives the fallback text. -/
theorem claim_C8_witness :
    coreDomainMessage 9999 = "Invalid code value" :=
  claim_C8.2 9999 (by decide) (by decide) (by decide)

/-- Claim C9: ErrorCode equality holds iff the values are equal and the
domain ids are equal, for all support-data components; in particular support
data 5 and 99 do not break equality. -/
theorem claim_C9 :
    (∀ (v1 v2 : Int) (d1 d2 : ErrorDomain) (s1 s2 : Nat),
        ErrorCode.eqb ⟨v1, d1, s1⟩ ⟨v2, d2, s2⟩ = true ↔
          (v1 = v2 ∧ d1.domId = d2.domId)) ∧
    ErrorCode.eqb ⟨1, coreErrorDomain, 5⟩ ⟨1, coreErrorDomain, 99⟩ =
      true := by
  refine ⟨?_, rfl⟩
  intro v1 v2 d1 d2 s1 s2
  simp [ErrorCode.eqb, ErrorDomain.eqb]

/-- Claim C10: a default-constructed Result<void,E> holds the void value:
HasValue() and the boolean conversion return true, and FromValue() returns
such an instance. -/
theorem claim_C10 {E : Type} :
    (ResultVoid.defaultCtor : ResultVoid E).HasValue = true ∧
    ResultVoid.toBool (ResultVoid.defaultCtor : ResultVoid E) = true ∧
    (ResultVoid.FromValue : ResultVoid E) = ResultVoid.defaultCtor ∧
    (ResultVoid.FromValue : ResultVoid E).HasValue = true := by
  exact ⟨rfl, rfl, rfl, rfl⟩

end AraCore
